import Mathlib

/-
Verification development for the smart-xerox campus print-shop application
(`smartprint` Django app).  The definitions below are a shallow embedding of
the pricing, order-aggregation and lifecycle code in
`smartprint/views.py`, `smartprint/forms.py`, `smartprint/models.py` and
`smartprint/admin.py`.  Decimal currency fields are modelled by `ℚ`,
integer model fields by `Int`, nullable timestamps by `Option Nat`.
-/

namespace SmartPrint

/-- A Python value as it can appear for the `is_color` / `needs_binding`
entries of the dictionary handed to `calculate_item_cost`: the AJAX path
(`calculate_cost_ajax`) supplies the strings `true` / `false` coming
from the JS `FormData`, whereas `user_panel` supplies `form.cleaned_data`,
whose checkbox entries are Python booleans. -/
inductive PyVal where
  | str (s : String)
  | bool (b : Bool)
deriving DecidableEq

/-- Embeds the Python comparison `x == "true"` for a `PyVal`.  In Python a
boolean is never equal to the string `true` (`True == "true"` is `False`),
so only the string `"true"` satisfies the test. -/
def pyEqTrueStr : PyVal → Bool
  | PyVal.str s => s == "true"
  | PyVal.bool _ => false

/-- Embeds the Python expression `str(b).lower()` for a Python boolean `b`
(`str(True).lower()` gives `"true"`, `str(False).lower()` gives `"false"`), as used by
the instance branch of `calculate_item_cost`. -/
def pyStrBoolLower (b : Bool) : String := if b then "true" else "false"

/-- The `PriceSetting` model (`models.py`): the three decimal rate fields
read by `calculate_item_cost`.  The remaining columns (`payment_policy`,
`last_updated`) are never read by any embedded operation and are omitted.
The model defines NO `total_earnings` and NO `total_pages_printed` column
(this matters for the bulk-approve admin action). -/
structure PriceSetting where
  price_per_bw_page : ℚ
  price_per_color_page : ℚ
  binding_cost : ℚ
deriving DecidableEq

/-- The defaults of the `PriceSetting` model fields
(`default=1.00`, `default=5.00`, `default=20.00`): the row that
`PriceSetting.objects.get_or_create(pk=1)` creates when none exists. -/
def defaultPriceSetting : PriceSetting :=
  { price_per_bw_page := 1, price_per_color_page := 5, binding_cost := 20 }

/-- Embeds `hasattr(price_settings, "total_earnings")` from `admin.py`: the
`PriceSetting` model (`models.py`) defines no such field, so the test is
`False`. -/
def priceSettingHasTotalEarnings : Bool := false

/-- Embeds `hasattr(price_settings, "total_pages_printed")` from `admin.py`: the
`PriceSetting` model (`models.py`) defines no such field, so the test is
`False`. -/
def priceSettingHasTotalPagesPrinted : Bool := false

/-- The dictionary handed to `calculate_item_cost` on its `isinstance(dict)`
branch.  `num_copies` / `total_pages` hold the result of Python `int(...)`
on the corresponding entry; the two flag entries keep their Python value
(string or boolean) because `calculate_item_cost` compares them with
`== "true"`. -/
structure ItemDict where
  num_copies : Int
  total_pages : Int
  is_color : PyVal
  needs_binding : PyVal
deriving DecidableEq

/-- The arithmetic core shared by both branches of `calculate_item_cost`
(`views.py` lines 47-61): clamp `num_copies < 1` to 1 and
`total_pages < 0` to 0, start from `cost = 0`, add the per-page charge at
the colour or black-and-white rate, add the binding charge if requested,
and return `cost * num_copies`. -/
def itemCostCore (num_copies0 total_pages0 : Int)
    (is_color needs_binding : Bool) (ps : PriceSetting) : ℚ :=
  let num_copies : Int := if num_copies0 < 1 then 1 else num_copies0
  let total_pages : Int := if total_pages0 < 0 then 0 else total_pages0
  let cost : ℚ := 0
  let cost : ℚ :=
    if is_color then cost + (total_pages : ℚ) * ps.price_per_color_page
    else cost + (total_pages : ℚ) * ps.price_per_bw_page
  let cost : ℚ := if needs_binding then cost + ps.binding_cost else cost
  cost * (num_copies : ℚ)

/-- Dictionary branch of `calculate_item_cost` (`views.py` lines 30-61):
`num_copies` and `total_pages` are read with `int(item_data.get(...))`,
the two flags with `item_data.get(...) == "true"` (modelled by
`pyEqTrueStr`). -/
def calculate_item_cost_dict (d : ItemDict) (ps : PriceSetting) : ℚ :=
  itemCostCore d.num_copies d.total_pages
    (pyEqTrueStr d.is_color) (pyEqTrueStr d.needs_binding) ps

/-- A persisted `PrintJob` row (`models.py`).  `document` records whether
the `FileField` is non-empty (`if not job_item.document` in
`print_job_document`); `color_pages_info` is informational only and
omitted. -/
structure PrintJobRec where
  document : Bool
  total_pages : Int
  num_copies : Int
  is_color : Bool
  needs_binding : Bool
  item_estimated_cost : ℚ
  is_printed_by_admin : Bool
deriving DecidableEq

/-- Instance branch of `calculate_item_cost` (`views.py` lines 30-61), the
`PrintJob` case: `int(item_data.num_copies)`, `int(item_data.total_pages)`, and
`str(item_data.is_color).lower() == "true"` for the flags (modelled by
`pyStrBoolLower`). -/
def calculate_item_cost_instance (j : PrintJobRec) (ps : PriceSetting) : ℚ :=
  itemCostCore j.num_copies j.total_pages
    (pyStrBoolLower j.is_color == "true") (pyStrBoolLower j.needs_binding == "true") ps

/-- One `POST` item as read by `calculate_cost_ajax` (`views.py` lines
185-198): `delete` is whether `items-i-DELETE` equals the string `true`;
the other four fields are the raw `POST` entries, `none` standing for a
missing or empty value so that the Python `or`-defaults `1`, `0`,
`false`, `false` apply.  The numeric entries are modelled after the
`int(...)` parse they undergo inside `calculate_item_cost`. -/
structure AjaxItem where
  delete : Bool
  num_copies : Option Int
  total_pages : Option Int
  is_color : Option String
  needs_binding : Option String
deriving DecidableEq

/-- The `item_data_for_calc` dictionary that `calculate_cost_ajax` builds
for one item (`views.py` lines 193-198): defaults applied, flag values kept
as strings. -/
def ajaxDict (a : AjaxItem) : ItemDict :=
  { num_copies := a.num_copies.getD 1
    total_pages := a.total_pages.getD 0
    is_color := PyVal.str (a.is_color.getD "false")
    needs_binding := PyVal.str (a.needs_binding.getD "false") }

/-- The accumulation loop of `calculate_cost_ajax`: skip items whose
`DELETE` entry is `true`, otherwise add `calculate_item_cost` of the
dictionary built for that item. -/
def ajaxTotal (ps : PriceSetting) : List AjaxItem → ℚ
  | [] => 0
  | a :: rest =>
      (if a.delete then 0 else calculate_item_cost_dict (ajaxDict a) ps) + ajaxTotal ps rest

/-- View `calculate_cost_ajax` (`views.py` lines 170-208): `psOpt` is
`PriceSetting.objects.first()` (`none` when no row exists), in which case
the view returns the error response of line 179 without pricing anything;
otherwise it returns the summed estimated cost. -/
def calculate_cost_ajax (psOpt : Option PriceSetting) (posts : List AjaxItem) :
    Except String ℚ :=
  match psOpt with
  | none => Except.error "Price settings not found. Please configure in admin."
  | some ps => Except.ok (ajaxTotal ps posts)

/-- The outcome of the fallible PyMuPDF page count for one uploaded file
(the `try` block of `views.py` lines 111-123): `some n` when
`fitz.open(...).page_count` returns `n`, `none` when the block raises and
the `except` branch runs. -/
structure UploadedFile where
  countResult : Option Int
deriving DecidableEq

/-- A `PredefinedDocument` row (`models.py`): only its precomputed
`total_pages` (and implicitly its stored file) are read by the
aggregation path. -/
structure PredefinedDocumentRec where
  total_pages : Int
deriving DecidableEq

/-- One formset item as it reaches `PrintJobItemForm.clean` and the
`user_panel` loop: `delete` is the `DELETE` entry of the form, `hasData` is
whether any field of the form was filled (a completely empty extra form is
`empty_permitted` in Django and skips validation), `document` the uploaded
file (if any), `predefined` the selected `PredefinedDocument` (if any),
`total_pages` the user-declared page count from `cleaned_data` (`none`
when absent), plus the copies/colour/binding inputs. -/
structure ItemSpec where
  delete : Bool
  hasData : Bool
  document : Option UploadedFile
  predefined : Option PredefinedDocumentRec
  total_pages : Option Int
  num_copies : Int
  is_color : Bool
  needs_binding : Bool
deriving DecidableEq

/-- Method `PrintJobItemForm.clean` (`forms.py` lines 37-61) as a validity
predicate, together with the Django formset handling: a form marked `DELETE`
returns early (and is excluded from formset validation anyway); an empty
extra form is skipped (`empty_permitted`); otherwise exactly one of
{upload, predefined} must be present, and `total_pages` must be a positive
number (`add_error` on `total_pages` otherwise). -/
def formIsValid (s : ItemSpec) : Bool :=
  if s.delete then true
  else if !s.hasData then true
  else
    match s.document, s.predefined with
    | none, none => false
    | some _, some _ => false
    | _, _ =>
        match s.total_pages with
        | none => false
        | some n => decide (0 < n)

/-- Page-count resolution of the `user_panel` loop (`views.py` lines
102-126): a referenced predefined document wins with its precomputed count;
else an uploaded file is counted when PyMuPDF (`fitz`) is available, a
counting failure resolving to 0; else the user-declared `total_pages` is
used, defaulting to 0 when absent. -/
def resolve_total_pages (fitz : Bool) (s : ItemSpec) : Int :=
  match s.predefined with
  | some pd => pd.total_pages
  | none =>
      match s.document with
      | some up =>
          if fitz then
            match up.countResult with
            | some n => n
            | none => 0
          else s.total_pages.getD 0
      | none => s.total_pages.getD 0

/-- The `form.cleaned_data` dictionary as handed to `calculate_item_cost`
at `views.py` line 131: integers stay integers, but the checkbox entries
are Python BOOLEANS (`PyVal.bool`), not the `true`/`false` strings the
AJAX path sends. -/
def cleanedDict (s : ItemSpec) : ItemDict :=
  { num_copies := s.num_copies
    total_pages := s.total_pages.getD 0
    is_color := PyVal.bool s.is_color
    needs_binding := PyVal.bool s.needs_binding }

/-- The `PrintJob` row persisted for one surviving form of the `user_panel`
loop (`views.py` lines 99-132): the model fields come from
`form.save(commit=False)`, `total_pages` is overwritten by the resolution
precedence, the cost is `calculate_item_cost(form.cleaned_data, ...)`, and
`is_printed_by_admin` keeps its model default `False`. -/
def mkPrintJobItem (fitz : Bool) (ps : PriceSetting) (s : ItemSpec) : PrintJobRec :=
  { document := s.document.isSome || s.predefined.isSome
    total_pages := resolve_total_pages fitz s
    num_copies := s.num_copies
    is_color := s.is_color
    needs_binding := s.needs_binding
    item_estimated_cost := calculate_item_cost_dict (cleanedDict s) ps
    is_printed_by_admin := false }

/-- The `for form in formset` loop of `user_panel` (`views.py` lines
89-133): skip forms marked `DELETE`, skip forms with neither an upload nor
a predefined reference, persist a `PrintJob` for every other form. -/
def processItems (fitz : Bool) (ps : PriceSetting) : List ItemSpec → List PrintJobRec
  | [] => []
  | s :: rest =>
      if s.delete then processItems fitz ps rest
      else if s.document.isNone && s.predefined.isNone then processItems fitz ps rest
      else mkPrintJobItem fitz ps s :: processItems fitz ps rest

/-- Status choices of the `PrintOrder` model (`models.py`). -/
inductive OrderStatus where
  | pending
  | approved
  | in_progress
  | completed
  | rejected
deriving DecidableEq

/-- Payment-status choices of the `PrintOrder` model (`models.py`). -/
inductive PaymentStatus where
  | pending
  | advance_paid
  | full_paid
  | refunded
deriving DecidableEq

/-- A `PrintOrder` row (`models.py`) together with its related `PrintJob`
items: status fields, the two nullable lifecycle timestamps, the summed
estimated cost, and the item collection.  The routine columns
(`user`, `amount_paid`, `priority`, `is_emergency`, `requested_at`,
`admin_notes`) are not read by any embedded operation and are omitted. -/
structure PrintOrderState where
  status : OrderStatus
  payment_status : PaymentStatus
  approved_at : Option Nat
  completed_at : Option Nat
  total_estimated_cost : ℚ
  items : List PrintJobRec
deriving DecidableEq

/-- The `POST` branch of `user_panel` (`views.py` lines 81-142) for a given
`PriceSetting`: when `formset.is_valid()` fails, nothing is persisted
(`none`); otherwise one `PrintOrder` is created with the model defaults
(`PENDING` / payment `PENDING`, null timestamps), the loop persists the
surviving items, and `total_estimated_cost` is the accumulated sum of the
item costs.  A `some` result models the redirect to the success page. -/
def user_panel_post (fitz : Bool) (ps : PriceSetting) (specs : List ItemSpec) :
    Option PrintOrderState :=
  if specs.all (fun s => formIsValid s) then
    let items := processItems fitz ps specs
    some { status := OrderStatus.pending
           payment_status := PaymentStatus.pending
           approved_at := none
           completed_at := none
           total_estimated_cost := (items.map (fun j => j.item_estimated_cost)).sum
           items := items }
  else none

/-- View `user_panel` (`views.py` line 79 onward): the price settings are
obtained with `PriceSetting.objects.get_or_create(pk=1)`, so when no row
exists (`psOpt = none`) a default-rate row is created and the submission
proceeds with it rather than failing. -/
def user_panel_view (fitz : Bool) (psOpt : Option PriceSetting)
    (specs : List ItemSpec) : Option PrintOrderState :=
  user_panel_post fitz (psOpt.getD defaultPriceSetting) specs

/-- View `approve_order` (`views.py` lines 307-314): unconditionally sets the
status to `APPROVED` and stamps `approved_at` with the current time,
whatever the current status is. -/
def approve_order (now : Nat) (o : PrintOrderState) : PrintOrderState :=
  { o with status := OrderStatus.approved, approved_at := some now }

/-- View `reject_order` (`views.py` lines 316-322): unconditionally sets the
status to `REJECTED`; no other field is touched. -/
def reject_order (o : PrintOrderState) : PrintOrderState :=
  { o with status := OrderStatus.rejected }

/-- View `complete_order` (`views.py` lines 324-331): unconditionally sets the
status to `COMPLETED` and stamps `completed_at`; `approved_at` is not
touched. -/
def complete_order (now : Nat) (o : PrintOrderState) : PrintOrderState :=
  { o with status := OrderStatus.completed, completed_at := some now }

/-- View `mark_as_paid_order` (`views.py` lines 333-339): sets the payment
status to `FULL_PAID`, independent of `status`. -/
def mark_as_paid_order (o : PrintOrderState) : PrintOrderState :=
  { o with payment_status := PaymentStatus.full_paid }

/-- One administrator lifecycle action on an existing order, as exposed by
the four single-order views. -/
inductive LifecycleOp where
  | approve (now : Nat)
  | reject
  | complete (now : Nat)
  | markPaid
deriving DecidableEq

/-- Applies one lifecycle view to an order. -/
def applyLifecycleOp (op : LifecycleOp) (o : PrintOrderState) : PrintOrderState :=
  match op with
  | LifecycleOp.approve now => approve_order now o
  | LifecycleOp.reject => reject_order o
  | LifecycleOp.complete now => complete_order now o
  | LifecycleOp.markPaid => mark_as_paid_order o

/-- Runs a sequence of lifecycle views on an order, first action first. -/
def runOps : List LifecycleOp → PrintOrderState → PrintOrderState
  | [], o => o
  | op :: rest, o => runOps rest (applyLifecycleOp op o)

/-- Whether a status is `APPROVED` or a later stage of the intended
lifecycle (`APPROVED`, `IN_PROGRESS`, `COMPLETED`). -/
def statusReachedApproved (st : OrderStatus) : Bool :=
  match st with
  | OrderStatus.approved => true
  | OrderStatus.in_progress => true
  | OrderStatus.completed => true
  | _ => false

/-- The timestamp invariant asserted by the specification: `approved_at`
is non-null iff the status has reached `APPROVED` or later, and
`completed_at` is non-null iff the status is `COMPLETED`. -/
def lifecycleInvB (o : PrintOrderState) : Bool :=
  (o.approved_at.isSome == statusReachedApproved o.status) &&
    (o.completed_at.isSome == decide (o.status = OrderStatus.completed))

/-- View `print_job_document` (`views.py` lines 341-365) restricted to its
state effect on the matched order/item pair: `Http404` (`none`) when the
document file of the item is missing; otherwise the `is_printed_by_admin`
flag of the item is set if (and only if) it was not already set,
and the order is left untouched. -/
def print_job_document (order : PrintOrderState) (item : PrintJobRec) :
    Option (PrintOrderState × PrintJobRec) :=
  if item.document = false then none
  else
    some (order,
      if item.is_printed_by_admin = false then { item with is_printed_by_admin := true }
      else item)

/-- One iteration of the `for order in queryset` loop of the
`approve_orders` admin action (`admin.py` lines 11-35): an order already
`APPROVED` is skipped entirely; otherwise it becomes `APPROVED` with
`approved_at` stamped, every item is marked printed, and the loop
accumulators `total_cost` / `total_pages` would be added to the
`PriceSetting` counters — but only under `hasattr` guards that are `False`
on the actual model, so the applied counter deltas (returned as the second
and third components) are 0. -/
def approve_orders_step (now : Nat) (o : PrintOrderState) :
    PrintOrderState × ℚ × Int :=
  if o.status = OrderStatus.approved then (o, 0, 0)
  else
    let o2 : PrintOrderState :=
      { o with status := OrderStatus.approved
               approved_at := some now
               items := o.items.map (fun j => { j with is_printed_by_admin := true }) }
    let total_cost : ℚ := (o.items.map (fun j => j.item_estimated_cost)).sum
    let total_pages : Int := (o.items.map (fun j => j.total_pages * j.num_copies)).sum
    (o2,
      if priceSettingHasTotalEarnings then total_cost else 0,
      if priceSettingHasTotalPagesPrinted then total_pages else 0)

/-- Result of one invocation of the `approve_orders` admin action: the
orders of the selection after the run, and the total increments actually
applied to the hypothetical `total_earnings` / `total_pages_printed`
counters during the run. -/
structure BulkResult where
  orders : List PrintOrderState
  earningsDelta : ℚ
  pagesDelta : Int
deriving DecidableEq

/-- Action `approve_orders` (`admin.py` lines 7-35) over a selected queryset:
each selected order is processed by `approve_orders_step` and the counter
deltas are accumulated. -/
def approve_orders (now : Nat) : List PrintOrderState → BulkResult
  | [] => { orders := [], earningsDelta := 0, pagesDelta := 0 }
  | o :: rest =>
      let step := approve_orders_step now o
      let r := approve_orders now rest
      { orders := step.1 :: r.orders
        earningsDelta := step.2.1 + r.earningsDelta
        pagesDelta := step.2.2 + r.pagesDelta }

/-- A formset item survives the `user_panel` loop when it is not marked
for deletion and carries a document source (upload or predefined). -/
def survives (s : ItemSpec) : Bool :=
  !s.delete && (s.document.isSome || s.predefined.isSome)

/-- The updated order written by one non-skipped iteration of the
bulk-approve action: status APPROVED, `approved_at` stamped, every item
marked printed. -/
def bulkApproved (now : Nat) (o : PrintOrderState) : PrintOrderState :=
  { o with status := OrderStatus.approved
           approved_at := some now
           items := o.items.map (fun j => { j with is_printed_by_admin := true }) }

/-- A sample PENDING order for the bulk-approve scenarios: one item of 10
pages, 2 copies, costed 60.00, so the order totals are 60.00 of earnings
and 20 printed pages. -/
def sampleBulkOrder : PrintOrderState :=
  { status := OrderStatus.pending, payment_status := PaymentStatus.pending,
    approved_at := none, completed_at := none, total_estimated_cost := 60,
    items := [{ document := true, total_pages := 10, num_copies := 2,
                is_color := false, needs_binding := true,
                item_estimated_cost := 60, is_printed_by_admin := false }] }

/-- Decoding a string-encoded boolean flag, as the AJAX path sends it,
recovers the flag. -/
lemma pyEqTrueStr_encode (c : Bool) :
    pyEqTrueStr (PyVal.str (if c then "true" else "false")) = c := by
  cases c <;> decide

/-- Decoding `str(b).lower() == "true"` recovers the boolean `b`. -/
lemma pyStrBoolLower_decode (b : Bool) : (pyStrBoolLower b == "true") = b := by
  cases b <;> decide

/-- A boolean-valued flag entry, as `user_panel` sends via `cleaned_data`,
never passes the `== "true"` test. -/
lemma pyEqTrueStr_bool (b : Bool) : pyEqTrueStr (PyVal.bool b) = false := rfl

/-- Closed form of the shared arithmetic core: clamped copies times
(clamped pages times the applicable rate, plus the binding charge). -/
lemma itemCostCore_eq (nc tp : Int) (c b : Bool) (ps : PriceSetting) :
    itemCostCore nc tp c b ps
      = ((if nc < 1 then (1 : Int) else nc) : ℚ) *
          (((if tp < 0 then (0 : Int) else tp) : ℚ) *
             (if c then ps.price_per_color_page else ps.price_per_bw_page)
           + (if b then ps.binding_cost else 0)) := by
  unfold itemCostCore
  cases c <;> cases b <;> by_cases h1 : nc < 1 <;> by_cases h2 : tp < 0 <;>
    simp [h1, h2] <;> ring

/-- C1.  `calculate_item_cost` returns
`copies × (pageCount × (color ? colorRate : monoRate) + (binding ? bindingCost : 0))`
after clamping `copies < 1` to 1 and `pageCount < 0` to 0 — on the
dictionary branch with the string flag encoding the AJAX path sends, and on
the `PrintJob`-instance branch; in particular, at the default rates
(mono 1.00, colour 5.00, binding 20.00) an item of 10 pages, 2 copies,
no colour, with binding costs 60.00. -/
theorem C1_pricing_formula :
    (∀ (copies pages : Int) (c b : Bool) (ps : PriceSetting),
        calculate_item_cost_dict
          { num_copies := copies, total_pages := pages,
            is_color := PyVal.str (if c then "true" else "false"),
            needs_binding := PyVal.str (if b then "true" else "false") } ps
          = ((if copies < 1 then (1 : Int) else copies) : ℚ) *
              (((if pages < 0 then (0 : Int) else pages) : ℚ) *
                 (if c then ps.price_per_color_page else ps.price_per_bw_page)
               + (if b then ps.binding_cost else 0)))
    ∧ (∀ (j : PrintJobRec) (ps : PriceSetting),
        calculate_item_cost_instance j ps
          = ((if j.num_copies < 1 then (1 : Int) else j.num_copies) : ℚ) *
              (((if j.total_pages < 0 then (0 : Int) else j.total_pages) : ℚ) *
                 (if j.is_color then ps.price_per_color_page else ps.price_per_bw_page)
               + (if j.needs_binding then ps.binding_cost else 0)))
    ∧ calculate_item_cost_instance
        { document := true, total_pages := 10, num_copies := 2, is_color := false,
          needs_binding := true, item_estimated_cost := 0, is_printed_by_admin := false }
        defaultPriceSetting = 60 := by
  refine ⟨?_, ?_, ?_⟩
  · intro copies pages c b ps
    simp only [calculate_item_cost_dict, pyEqTrueStr_encode]
    exact itemCostCore_eq copies pages c b ps
  · intro j ps
    simp only [calculate_item_cost_instance, pyStrBoolLower_decode]
    exact itemCostCore_eq j.num_copies j.total_pages j.is_color j.needs_binding ps
  · simp only [calculate_item_cost_instance, pyStrBoolLower_decode]
    norm_num [itemCostCore, defaultPriceSetting]

/-- C2.  With a configured price table (default rates) and a single item of
10 pages, 1 copy, colour, no binding, the AJAX cost preview prices the item
at the colour rate (50.00), while submitting the very same specification
persists a total of 10.00: `user_panel` hands `calculate_item_cost` the
`cleaned_data` dictionary whose checkbox entries are Python booleans, and
a Python boolean never satisfies the `== "true"` comparison, so the
persistence path always prices at the mono rate without binding.  The two
invocation paths of the pricing function disagree on identical inputs. -/
theorem C2_preview_vs_persisted_divergence :
    calculate_cost_ajax (some defaultPriceSetting)
        [{ delete := false, num_copies := some 1, total_pages := some 10,
           is_color := some "true", needs_binding := some "false" }]
      = Except.ok 50
    ∧ (user_panel_view true (some defaultPriceSetting)
          [{ delete := false, hasData := true, document := none,
             predefined := some { total_pages := 10 }, total_pages := some 10,
             num_copies := 1, is_color := true, needs_binding := false }]).map
          (fun o => o.total_estimated_cost)
      = some 10
    ∧ (50 : ℚ) ≠ 10 := by
  refine ⟨?_, ?_, by norm_num⟩
  · simp only [calculate_cost_ajax, ajaxTotal, ajaxDict, calculate_item_cost_dict]
    norm_num [pyEqTrueStr, itemCostCore]
    norm_num [defaultPriceSetting]
    decide
  · simp only [user_panel_view, user_panel_post]
    norm_num [formIsValid, processItems, mkPrintJobItem, cleanedDict,
      calculate_item_cost_dict, itemCostCore, pyEqTrueStr, defaultPriceSetting,
      resolve_total_pages]

/-- The `user_panel` loop persists exactly the surviving items, in
submission order. -/
lemma processItems_eq_filter (fitz : Bool) (ps : PriceSetting) (specs : List ItemSpec) :
    processItems fitz ps specs = (specs.filter survives).map (mkPrintJobItem fitz ps) := by
  induction specs with
  | nil => rfl
  | cons s rest ih =>
      cases hd : s.delete with
      | true => simp [processItems, hd, survives, List.filter_cons, ih]
      | false =>
          cases hdoc : (s.document.isSome || s.predefined.isSome) with
          | true =>
              have hnone : (s.document.isNone && s.predefined.isNone) = false := by
                cases hu : s.document <;> cases hp : s.predefined <;>
                  simp_all [Option.isSome, Option.isNone]
              simp [processItems, hd, hnone, survives, List.filter_cons, hdoc, ih]
          | false =>
              have hnone : (s.document.isNone && s.predefined.isNone) = true := by
                cases hu : s.document <;> cases hp : s.predefined <;>
                  simp_all [Option.isSome, Option.isNone]
              simp [processItems, hd, hnone, survives, List.filter_cons, hdoc, ih]

/-- When every item is deleted or carries no document source, the
`user_panel` loop persists nothing. -/
lemma processItems_eq_nil (fitz : Bool) (ps : PriceSetting) (specs : List ItemSpec)
    (h : ∀ s ∈ specs, s.delete = true ∨ (s.document = none ∧ s.predefined = none)) :
    processItems fitz ps specs = [] := by
  induction specs with
  | nil => rfl
  | cons s rest ih =>
      have hrest : processItems fitz ps rest = [] :=
        ih (fun x hx => h x (List.mem_cons_of_mem _ hx))
      rcases h s (List.mem_cons_self _ _) with hd | ⟨h1, h2⟩
      · simp [processItems, hd, hrest]
      · cases hd : s.delete <;> simp [processItems, hd, h1, h2, hrest]

/-- C3.  Atomicity of submission: when some non-deleted item of the
formset fails validation, the `POST` branch of `user_panel` creates no
`PrintOrder` and no `PrintJob` at all; when every form is valid, exactly
one `PrintOrder` is created, containing precisely the surviving
(non-deleted, document-bearing) items and carrying a total equal to the
sum of their costs.  Moreover a filled, non-deleted item with both or
neither of {upload, predefined reference} always fails validation. -/
theorem C3_atomic_submission (fitz : Bool) (psOpt : Option PriceSetting)
    (specs : List ItemSpec) :
    ((∃ s ∈ specs, s.delete = false ∧ formIsValid s = false) →
        user_panel_view fitz psOpt specs = none)
    ∧ ((∀ s ∈ specs, formIsValid s = true) →
        user_panel_view fitz psOpt specs
          = some { status := OrderStatus.pending
                   payment_status := PaymentStatus.pending
                   approved_at := none
                   completed_at := none
                   total_estimated_cost :=
                     (((specs.filter survives).map
                         (mkPrintJobItem fitz (psOpt.getD defaultPriceSetting))).map
                       (fun j => j.item_estimated_cost)).sum
                   items := (specs.filter survives).map
                     (mkPrintJobItem fitz (psOpt.getD defaultPriceSetting)) })
    ∧ (∀ s : ItemSpec, s.delete = false → s.hasData = true →
        ((s.document.isSome ∧ s.predefined.isSome) ∨
          (s.document = none ∧ s.predefined = none)) →
        formIsValid s = false) := by
  refine ⟨?_, ?_, ?_⟩
  · rintro ⟨s, hmem, hdel, hval⟩
    unfold user_panel_view user_panel_post
    rw [if_neg]
    intro hall
    rw [List.all_eq_true] at hall
    exact absurd (hall s hmem) (by simp [hval])
  · intro hall
    unfold user_panel_view user_panel_post
    rw [if_pos (List.all_eq_true.mpr (fun s hs => by simp [hall s hs]))]
    rw [processItems_eq_filter]
  · intro s h1 h2 h3
    unfold formIsValid
    rcases h3 with ⟨hu, hp⟩ | ⟨hu, hp⟩
    · obtain ⟨u, hu⟩ := Option.isSome_iff_exists.mp hu
      obtain ⟨p, hp⟩ := Option.isSome_iff_exists.mp hp
      simp [h1, h2, hu, hp]
    · simp [h1, h2, hu, hp]

/-- Witness for C3: a single item carrying both an upload and a predefined
reference aborts the submission with nothing persisted, while a single
valid mono item goes through as one order. -/
theorem C3_atomic_submission_witness :
    user_panel_view true none
        [{ delete := false, hasData := true,
           document := some { countResult := some 3 },
           predefined := some { total_pages := 3 }, total_pages := some 3,
           num_copies := 1, is_color := false, needs_binding := false }] = none
    ∧ user_panel_view true none
        [{ delete := false, hasData := true, document := none,
           predefined := some { total_pages := 4 }, total_pages := some 4,
           num_copies := 1, is_color := false, needs_binding := false }]
      = some { status := OrderStatus.pending
               payment_status := PaymentStatus.pending
               approved_at := none
               completed_at := none
               total_estimated_cost :=
                 ((([{ delete := false, hasData := true, document := none,
                       predefined := some { total_pages := 4 }, total_pages := some 4,
                       num_copies := 1, is_color := false,
                       needs_binding := false }].filter survives).map
                     (mkPrintJobItem true defaultPriceSetting)).map
                   (fun j => j.item_estimated_cost)).sum
               items := ([{ delete := false, hasData := true, document := none,
                            predefined := some { total_pages := 4 }, total_pages := some 4,
                            num_copies := 1, is_color := false,
                            needs_binding := false }].filter survives).map
                 (mkPrintJobItem true defaultPriceSetting) } := by
  constructor
  · exact (C3_atomic_submission true none _).1
      ⟨_, List.mem_singleton.mpr rfl, rfl, by decide⟩
  · exact (C3_atomic_submission true none _).2.1 (by decide)

/-- C10.  When the formset validates but every form is deleted or carries
neither an upload nor a predefined reference, `user_panel` still creates
and persists one `PrintOrder` with zero items and total 0 and redirects to
the success page: there is no emptiness check on the surviving items. -/
theorem C10_empty_order_created (fitz : Bool) (psOpt : Option PriceSetting)
    (specs : List ItemSpec)
    (hvalid : ∀ s ∈ specs, formIsValid s = true)
    (hempty : ∀ s ∈ specs, s.delete = true ∨ (s.document = none ∧ s.predefined = none)) :
    user_panel_view fitz psOpt specs
      = some { status := OrderStatus.pending
               payment_status := PaymentStatus.pending
               approved_at := none
               completed_at := none
               total_estimated_cost := 0
               items := [] } := by
  unfold user_panel_view user_panel_post
  rw [if_pos (List.all_eq_true.mpr (fun s hs => by simp [hvalid s hs]))]
  rw [processItems_eq_nil fitz _ specs hempty]
  rfl

/-- Witness for C10: one deleted item plus one untouched empty extra form
yield a persisted empty order with total 0. -/
theorem C10_empty_order_created_witness :
    user_panel_view true none
        [{ delete := true, hasData := true, document := none,
           predefined := some { total_pages := 2 }, total_pages := some 2,
           num_copies := 1, is_color := false, needs_binding := false },
         { delete := false, hasData := false, document := none,
           predefined := none, total_pages := none,
           num_copies := 1, is_color := false, needs_binding := false }]
      = some { status := OrderStatus.pending
               payment_status := PaymentStatus.pending
               approved_at := none
               completed_at := none
               total_estimated_cost := 0
               items := [] } :=
  C10_empty_order_created true none _ (by decide) (by decide)

/-- C6.  Page-count resolution precedence of the persisted item: a
referenced predefined document wins with its precomputed count; else an
uploaded file is counted when PyMuPDF is available, a counting failure
resolving to 0; else the user-declared count is used, defaulting to 0 when
absent.  A counting failure never fails the submission: a fully valid
formset always persists an order. -/
theorem C6_page_count_resolution (fitz : Bool) (ps : PriceSetting) (s : ItemSpec) :
    (∀ pd, s.predefined = some pd →
        (mkPrintJobItem fitz ps s).total_pages = pd.total_pages)
    ∧ (s.predefined = none → ∀ up, s.document = some up → fitz = true →
        (mkPrintJobItem fitz ps s).total_pages = up.countResult.getD 0)
    ∧ (s.predefined = none → (s.document = none ∨ fitz = false) →
        (mkPrintJobItem fitz ps s).total_pages = s.total_pages.getD 0)
    ∧ (∀ (psOpt : Option PriceSetting) (specs : List ItemSpec),
        (∀ t ∈ specs, formIsValid t = true) →
        (user_panel_view fitz psOpt specs).isSome = true) := by
  refine ⟨?_, ?_, ?_, ?_⟩
  · intro pd hpd
    simp [mkPrintJobItem, resolve_total_pages, hpd]
  · intro hnone up hup hf
    cases hc : up.countResult <;>
      simp [mkPrintJobItem, resolve_total_pages, hnone, hup, hf, hc]
  · intro hnone hcase
    rcases hcase with hdoc | hf
    · simp [mkPrintJobItem, resolve_total_pages, hnone, hdoc]
    · cases hdoc : s.document <;>
        simp [mkPrintJobItem, resolve_total_pages, hnone, hdoc, hf]
  · intro psOpt specs hall
    unfold user_panel_view user_panel_post
    rw [if_pos (List.all_eq_true.mpr (fun t ht => by simp [hall t ht]))]
    rfl

/-- Witness for C6: the three precedence branches at concrete items — a
predefined document of 7 pages wins, a failing count on an upload resolves
to 0, a declared count of 9 is used when PyMuPDF is unavailable — and a
submission containing the failing-count item still persists an order. -/
theorem C6_page_count_resolution_witness :
    (mkPrintJobItem true defaultPriceSetting
        { delete := false, hasData := true, document := none,
          predefined := some { total_pages := 7 }, total_pages := some 5,
          num_copies := 1, is_color := false, needs_binding := false }).total_pages = 7
    ∧ (mkPrintJobItem true defaultPriceSetting
        { delete := false, hasData := true,
          document := some { countResult := none }, predefined := none,
          total_pages := some 5, num_copies := 1, is_color := false,
          needs_binding := false }).total_pages = 0
    ∧ (mkPrintJobItem false defaultPriceSetting
        { delete := false, hasData := true,
          document := some { countResult := some 4 }, predefined := none,
          total_pages := some 9, num_copies := 1, is_color := false,
          needs_binding := false }).total_pages = 9
    ∧ (user_panel_view true none
        [{ delete := false, hasData := true,
           document := some { countResult := none }, predefined := none,
           total_pages := some 5, num_copies := 1, is_color := false,
           needs_binding := false }]).isSome = true := by
  refine ⟨?_, ?_, ?_, ?_⟩
  · exact (C6_page_count_resolution true defaultPriceSetting _).1 _ rfl
  · exact (C6_page_count_resolution true defaultPriceSetting _).2.1 rfl
      { countResult := none } rfl rfl
  · exact (C6_page_count_resolution false defaultPriceSetting _).2.2.1 rfl (Or.inr rfl)
  · exact (C6_page_count_resolution true defaultPriceSetting
      { delete := false, hasData := true, document := some { countResult := none },
        predefined := none, total_pages := some 5, num_copies := 1,
        is_color := false, needs_binding := false }).2.2.2 none _ (by decide)

/-- Counterexample to C4: invoking the approve view on a REJECTED order
does change its status to APPROVED — there is no transition guard. -/
theorem C4_counterexample :
    (approve_order 5
      { status := OrderStatus.rejected, payment_status := PaymentStatus.pending,
        approved_at := none, completed_at := none, total_estimated_cost := 0,
        items := [] }).status = OrderStatus.approved := rfl

/-- C4 (amended).  The single-order transition views are unguarded: from
any current status, `approve_order` sets APPROVED and stamps
`approved_at`, `reject_order` sets REJECTED, and `complete_order` sets
COMPLETED; in particular a REJECTED order becomes APPROVED when the
approve action is invoked on it. -/
theorem C4_unguarded_transitions (now : Nat) (o : PrintOrderState) :
    (approve_order now o).status = OrderStatus.approved
    ∧ (approve_order now o).approved_at = some now
    ∧ (reject_order o).status = OrderStatus.rejected
    ∧ (complete_order now o).status = OrderStatus.completed :=
  ⟨rfl, rfl, rfl, rfl⟩

/-- Counterexample to C7: a freshly created PENDING order satisfies the
timestamp invariant, but applying the (unguarded) complete view to it
yields a COMPLETED order whose `approved_at` is still null, violating
"`approved_at` is non-null iff the status has reached APPROVED or
later". -/
theorem C7_counterexample :
    lifecycleInvB
        { status := OrderStatus.pending, payment_status := PaymentStatus.pending,
          approved_at := none, completed_at := none, total_estimated_cost := 0,
          items := [] } = true
    ∧ lifecycleInvB (complete_order 5
        { status := OrderStatus.pending, payment_status := PaymentStatus.pending,
          approved_at := none, completed_at := none, total_estimated_cost := 0,
          items := [] }) = false := by
  constructor <;> rfl

/-- Running lifecycle views only makes `approved_at` non-null through the
approve view. -/
lemma runOps_approved_at (ops : List LifecycleOp) (o : PrintOrderState) :
    ((runOps ops o).approved_at.isSome = true
      ↔ o.approved_at.isSome = true ∨ ∃ n, LifecycleOp.approve n ∈ ops) := by
  induction ops generalizing o with
  | nil => simp [runOps]
  | cons op rest ih =>
      cases op with
      | approve n =>
          rw [runOps, ih]
          simp [applyLifecycleOp, approve_order]
      | reject =>
          rw [runOps, ih]
          simp [applyLifecycleOp, reject_order]
      | complete n =>
          rw [runOps, ih]
          simp [applyLifecycleOp, complete_order]
      | markPaid =>
          rw [runOps, ih]
          simp [applyLifecycleOp, mark_as_paid_order]

/-- Running lifecycle views only makes `completed_at` non-null through the
complete view. -/
lemma runOps_completed_at (ops : List LifecycleOp) (o : PrintOrderState) :
    ((runOps ops o).completed_at.isSome = true
      ↔ o.completed_at.isSome = true ∨ ∃ n, LifecycleOp.complete n ∈ ops) := by
  induction ops generalizing o with
  | nil => simp [runOps]
  | cons op rest ih =>
      cases op with
      | approve n =>
          rw [runOps, ih]
          simp [applyLifecycleOp, approve_order]
      | reject =>
          rw [runOps, ih]
          simp [applyLifecycleOp, reject_order]
      | complete n =>
          rw [runOps, ih]
          simp [applyLifecycleOp, complete_order]
      | markPaid =>
          rw [runOps, ih]
          simp [applyLifecycleOp, mark_as_paid_order]

/-- C7 (amended).  Starting from a freshly submitted order (null
timestamps), after any sequence of the lifecycle views `approved_at` is
non-null iff the approve view was invoked at some point, and
`completed_at` is non-null iff the complete view was invoked; the
status-based iff of the original claim fails because the views are
unguarded (see the counterexample: completing a PENDING order yields
COMPLETED with `approved_at` null). -/
theorem C7_timestamps_track_operations (ops : List LifecycleOp)
    (pay : PaymentStatus) (cost : ℚ) (items : List PrintJobRec) :
    ((runOps ops
        { status := OrderStatus.pending, payment_status := pay,
          approved_at := none, completed_at := none,
          total_estimated_cost := cost, items := items }).approved_at.isSome = true
      ↔ ∃ n, LifecycleOp.approve n ∈ ops)
    ∧ ((runOps ops
        { status := OrderStatus.pending, payment_status := pay,
          approved_at := none, completed_at := none,
          total_estimated_cost := cost, items := items }).completed_at.isSome = true
      ↔ ∃ n, LifecycleOp.complete n ∈ ops) := by
  constructor
  · rw [runOps_approved_at]
    simp
  · rw [runOps_completed_at]
    simp

/-- Counterexample to C5: bulk-approving the sample order twice applies a
cumulative increment of 0 to the earnings counter and 0 to the
pages-printed counter, although the order totals are 60.00 and 20 — the
counters are incremented zero times, not exactly once, because the
`PriceSetting` model defines neither counter field and the `hasattr`
guards in the action therefore always fail. -/
theorem C5_counterexample :
    (approve_orders 1 [sampleBulkOrder]).earningsDelta
        + (approve_orders 2 (approve_orders 1 [sampleBulkOrder]).orders).earningsDelta = 0
    ∧ (approve_orders 1 [sampleBulkOrder]).pagesDelta
        + (approve_orders 2 (approve_orders 1 [sampleBulkOrder]).orders).pagesDelta = 0
    ∧ ((sampleBulkOrder.items.map (fun j => j.item_estimated_cost)).sum : ℚ) = 60
    ∧ ((sampleBulkOrder.items.map (fun j => j.total_pages * j.num_copies)).sum : Int) = 20
    ∧ (0 : ℚ) ≠ 60
    ∧ (0 : Int) ≠ 20 := by
  have hne : (OrderStatus.pending = OrderStatus.approved) = False :=
    eq_false (by decide)
  refine ⟨?_, ?_, ?_, ?_, by norm_num, by norm_num⟩
  · norm_num [approve_orders, approve_orders_step, sampleBulkOrder, hne,
      priceSettingHasTotalEarnings, priceSettingHasTotalPagesPrinted]
  · norm_num [approve_orders, approve_orders_step, sampleBulkOrder, hne,
      priceSettingHasTotalEarnings, priceSettingHasTotalPagesPrinted]
  · norm_num [sampleBulkOrder]
  · norm_num [sampleBulkOrder]

/-- C5 (amended).  Bulk-approving a not-yet-approved order twice leaves it
APPROVED with `approved_at` stamped and every contained item marked
printed after either run, and the second run is skipped by the
already-APPROVED guard; but the global earnings/pages counters are
incremented zero times (not once): the counter update is guarded by
`hasattr` tests for fields the `PriceSetting` model does not define. -/
theorem C5_bulk_approve_amended (t1 t2 : Nat) (o : PrintOrderState)
    (h : o.status ≠ OrderStatus.approved) :
    ∃ o1, (approve_orders t1 [o]).orders = [o1]
      ∧ o1.status = OrderStatus.approved
      ∧ o1.approved_at = some t1
      ∧ (∀ j ∈ o1.items, j.is_printed_by_admin = true)
      ∧ (approve_orders t2 [o1]).orders = [o1]
      ∧ (approve_orders t1 [o]).earningsDelta = 0
      ∧ (approve_orders t1 [o]).pagesDelta = 0
      ∧ (approve_orders t2 [o1]).earningsDelta = 0
      ∧ (approve_orders t2 [o1]).pagesDelta = 0 := by
  refine ⟨bulkApproved t1 o, ?_, rfl, rfl, ?_, ?_, ?_, ?_, ?_, ?_⟩
  · simp [approve_orders, approve_orders_step, h, bulkApproved]
  · intro j hj
    simp only [bulkApproved, List.mem_map] at hj
    obtain ⟨j0, _, hj0⟩ := hj
    rw [← hj0]
  · simp [approve_orders, approve_orders_step, bulkApproved]
  · simp [approve_orders, approve_orders_step, h,
      priceSettingHasTotalEarnings]
  · simp [approve_orders, approve_orders_step, h,
      priceSettingHasTotalPagesPrinted]
  · simp [approve_orders, approve_orders_step, bulkApproved]
  · simp [approve_orders, approve_orders_step, bulkApproved]

/-- Witness for C5 (amended): the double run on the sample PENDING order,
with both counter deltas of the first run equal to 0 and the first run
leaving the order APPROVED. -/
theorem C5_bulk_approve_amended_witness :
    (approve_orders 1 [sampleBulkOrder]).earningsDelta = 0
    ∧ (approve_orders 1 [sampleBulkOrder]).pagesDelta = 0 := by
  obtain ⟨o1, h1, h2, h3, h4, h5, h6, h7, h8, h9⟩ :=
    C5_bulk_approve_amended 1 2 sampleBulkOrder (by decide)
  exact ⟨h6, h7⟩

/-- C8.  Marking an item (with a stored document) as printed: the call
succeeds, leaves the owning order completely unchanged, sets the printed
flag, and a second call is an error-free no-op that again leaves order and
item as they are. -/
theorem C8_mark_printed_idempotent (order : PrintOrderState) (item : PrintJobRec)
    (h : item.document = true) :
    print_job_document order item
      = some (order, { item with is_printed_by_admin := true })
    ∧ print_job_document order { item with is_printed_by_admin := true }
      = some (order, { item with is_printed_by_admin := true }) := by
  obtain ⟨d, tp, nc, ic, nb, cost, flag⟩ := item
  have hd : d = true := h
  subst hd
  constructor
  · cases flag <;> simp [print_job_document]
  · simp [print_job_document]

/-- Witness for C8: a concrete unprinted item inside a pending order — the
first call succeeds and the second call returns exactly the state the
first produced. -/
theorem C8_mark_printed_idempotent_witness :
    print_job_document
        { status := OrderStatus.pending, payment_status := PaymentStatus.pending,
          approved_at := none, completed_at := none, total_estimated_cost := 10,
          items := [] }
        { document := true, total_pages := 10, num_copies := 1, is_color := false,
          needs_binding := false, item_estimated_cost := 10,
          is_printed_by_admin := false }
      = some ({ status := OrderStatus.pending, payment_status := PaymentStatus.pending,
                approved_at := none, completed_at := none, total_estimated_cost := 10,
                items := [] },
              { document := true, total_pages := 10, num_copies := 1, is_color := false,
                needs_binding := false, item_estimated_cost := 10,
                is_printed_by_admin := true })
    ∧ print_job_document
        { status := OrderStatus.pending, payment_status := PaymentStatus.pending,
          approved_at := none, completed_at := none, total_estimated_cost := 10,
          items := [] }
        { document := true, total_pages := 10, num_copies := 1, is_color := false,
          needs_binding := false, item_estimated_cost := 10,
          is_printed_by_admin := true }
      = some ({ status := OrderStatus.pending, payment_status := PaymentStatus.pending,
                approved_at := none, completed_at := none, total_estimated_cost := 10,
                items := [] },
              { document := true, total_pages := 10, num_copies := 1, is_color := false,
                needs_binding := false, item_estimated_cost := 10,
                is_printed_by_admin := true }) :=
  C8_mark_printed_idempotent
    { status := OrderStatus.pending, payment_status := PaymentStatus.pending,
      approved_at := none, completed_at := none, total_estimated_cost := 10,
      items := [] }
    { document := true, total_pages := 10, num_copies := 1, is_color := false,
      needs_binding := false, item_estimated_cost := 10,
      is_printed_by_admin := false } rfl

/-- Counterexample to C9: with zero `PriceSetting` rows, submitting a
valid 30-page, 2-copy mono item does not fail — `user_panel` silently
creates the default-rate price table and persists an order priced 60.00
with it. -/
theorem C9_counterexample :
    user_panel_view false none
        [{ delete := false, hasData := true, document := none,
           predefined := some { total_pages := 30 }, total_pages := some 30,
           num_copies := 2, is_color := false, needs_binding := false }]
      = some { status := OrderStatus.pending, payment_status := PaymentStatus.pending,
               approved_at := none, completed_at := none,
               total_estimated_cost := 60,
               items := [{ document := true, total_pages := 30, num_copies := 2,
                           is_color := false, needs_binding := false,
                           item_estimated_cost := 60,
                           is_printed_by_admin := false }] } := by
  simp only [user_panel_view, user_panel_post]
  norm_num [formIsValid, processItems, mkPrintJobItem, cleanedDict,
    calculate_item_cost_dict, itemCostCore, pyEqTrueStr, defaultPriceSetting,
    resolve_total_pages]

/-- C9 (amended).  When no `PriceSetting` row exists, the AJAX cost
preview fails explicitly with the configuration-error response and prices
nothing; order submission however does not fail: it behaves exactly as if
the default-rate price table were configured
(`PriceSetting.objects.get_or_create`). -/
theorem C9_missing_pricetable (posts : List AjaxItem) (fitz : Bool)
    (specs : List ItemSpec) :
    calculate_cost_ajax none posts
      = Except.error "Price settings not found. Please configure in admin."
    ∧ user_panel_view fitz none specs
      = user_panel_view fitz (some defaultPriceSetting) specs :=
  ⟨rfl, rfl⟩

end SmartPrint
